import Mathlib

/-!
Verification of the aibot news pipeline core.

We give a shallow embedding of the pipeline's pure core: Python strings are
lists of Unicode code points (`List Char`), the SQL store is a record of row
lists whose list order models the store's physical (unspecified) row order,
and the Celery passes become pure functions over that state.  External
collaborators (the OpenAI client `make_request` and the Telegram publisher
`publish_post`) are parameters of the pass functions.

Python's `str.lower` is embedded for the ASCII and Cyrillic alphabets (the
only alphabets appearing in the repository's string constants); `str.strip`,
`str.split`, `str.isupper` and the `re` patterns of `is_advertisement` are
embedded over the same alphabets, as noted at each definition.
-/

namespace AiBot

/-- Python strings, as sequences of Unicode code points. -/
abbrev Str := List Char

/-- Characters recognised by Python's default `strip`/`split` whitespace,
restricted to the ASCII whitespace actually produced by the parsers. -/
def isPySpace (c : Char) : Bool :=
  c = ' ' || c = '\t' || c = '\n' || c = '\r' || c.toNat = 0x0B || c.toNat = 0x0C

/-- `str.lower` on one code point, for ASCII `A`-`Z` and Cyrillic `А`-`Я`, `Ё`
(the alphabets of this repository); other code points are unchanged. -/
def pyLowerChar (c : Char) : Char :=
  if 'A' ≤ c && c ≤ 'Z' then Char.ofNat (c.toNat + 32)
  else if 0x410 ≤ c.toNat && c.toNat ≤ 0x42F then Char.ofNat (c.toNat + 32)
  else if c.toNat = 0x401 then Char.ofNat 0x451
  else c

/-- Python `str.lower`. -/
def pyLower (s : Str) : Str := s.map pyLowerChar

/-- Python `str.strip()`: drop leading and trailing whitespace. -/
def pyStrip (s : Str) : Str :=
  ((s.dropWhile isPySpace).reverse.dropWhile isPySpace).reverse

/-- `startsWith p s` holds when `p` is a prefix of `s`. -/
def startsWith : Str → Str → Bool
  | [], _ => true
  | _ :: _, [] => false
  | a :: p, b :: s => a == b && startsWith p s

/-- `endsWith p s`: Python `s.endswith(p)`. -/
def endsWith (p s : Str) : Bool := startsWith p.reverse s.reverse

/-- Python's substring test `p in s`. -/
def isSubstring (pat : Str) : Str → Bool
  | [] => pat.isEmpty
  | l@(_ :: rest) => startsWith pat l || isSubstring pat rest

/-- Python `s.count(pat)` for the non-self-overlapping patterns used in
`is_advertisement` (`http://`, `https://`, `t.me/` have no nonempty proper
border, so counting all start positions equals Python's non-overlapping
count). -/
def countSub (pat : Str) : Str → Nat
  | [] => 0
  | l@(_ :: rest) => (if startsWith pat l then 1 else 0) + countSub pat rest

/-- Python `str.split()` with no separator: split on whitespace runs and drop
empty words.  `acc` accumulates the current word in reverse. -/
def pySplitAux : Str → Str → List Str
  | [], acc => if acc.isEmpty then [] else [acc.reverse]
  | c :: rest, acc =>
    if isPySpace c then
      if acc.isEmpty then pySplitAux rest [] else acc.reverse :: pySplitAux rest []
    else pySplitAux rest (c :: acc)

/-- Python `str.split()`. -/
def pySplit (s : Str) : List Str := pySplitAux s []

/-- Python's truthiness of a string: nonempty. -/
def pyTruthy (s : Str) : Bool := !s.isEmpty

/-- Python's truthiness of an optional string: not `None` and nonempty. -/
def optTruthy : Option Str → Bool
  | none => false
  | some s => !s.isEmpty

/-- `\w` of Python's `re` (Unicode word character), restricted to ASCII
alphanumerics, underscore and the Cyrillic block. -/
def isWordChar (c : Char) : Bool :=
  ('a' ≤ c && c ≤ 'z') || ('A' ≤ c && c ≤ 'Z') || ('0' ≤ c && c ≤ '9') ||
    c = '_' || (0x400 ≤ c.toNat && c.toNat ≤ 0x4FF)

/-- `\d` of Python's `re`, restricted to ASCII digits. -/
def isDigitChar (c : Char) : Bool := '0' ≤ c && c ≤ '9'

/-- A cased character, for `str.isupper` (ASCII letters and Cyrillic). -/
def isCasedChar (c : Char) : Bool :=
  ('a' ≤ c && c ≤ 'z') || ('A' ≤ c && c ≤ 'Z') ||
    (0x410 ≤ c.toNat && c.toNat ≤ 0x44F) || c.toNat = 0x401 || c.toNat = 0x451

/-- An uppercase cased character (ASCII `A`-`Z`, Cyrillic `А`-`Я`, `Ё`). -/
def isUpperCasedChar (c : Char) : Bool :=
  ('A' ≤ c && c ≤ 'Z') || (0x410 ≤ c.toNat && c.toNat ≤ 0x42F) || c.toNat = 0x401

/-- Python `str.isupper()`: at least one cased character, and every cased
character is uppercase. -/
def pyIsUpper (s : Str) : Bool :=
  s.any isCasedChar && s.all (fun c => !isCasedChar c || isUpperCasedChar c)

/-- One code point of the emoji character class of `is_advertisement`:
`[\U0001F600-\U0001F64F\U0001F300-\U0001F5FF\U0001F680-\U0001F6FF\U0001F1E0-\U0001F1FF]`
(utils.py line 186). -/
def isEmojiChar (c : Char) : Bool :=
  (0x1F600 ≤ c.toNat && c.toNat ≤ 0x1F64F) ||
  (0x1F300 ≤ c.toNat && c.toNat ≤ 0x1F5FF) ||
  (0x1F680 ≤ c.toNat && c.toNat ≤ 0x1F6FF) ||
  (0x1F1E0 ≤ c.toNat && c.toNat ≤ 0x1F1FF)

/-- `re.match(emoji_pattern, title)` for the pattern above with quantifier
`{3,}`: the match succeeds exactly when the first three characters exist and
all lie in the class. -/
def emojiRuleFires : Str → Bool
  | a :: b :: c :: _ => isEmojiChar a && isEmojiChar b && isEmojiChar c
  | _ => false

/-- `re.search(r'@\w+', text)`: some `@` immediately followed by a word
character. -/
def hasAtHandle : Str → Bool
  | [] => false
  | '@' :: c :: rest => isWordChar c || hasAtHandle (c :: rest)
  | _ :: rest => hasAtHandle rest

/-- `re.search(r'\+?\d{10,}', text)`: a match exists exactly when the text
contains 10 consecutive digits (the optional `+` adds nothing to existence). -/
def hasTenDigitRun : Str → Bool
  | [] => false
  | l@(_ :: rest) =>
    (decide (10 ≤ l.length) && (l.take 10).all isDigitChar) || hasTenDigitRun rest

/-- An email-shaped match of `\b\w+@\w+\.\w+\b` starting at this position:
a nonempty word run, `@`, a nonempty word run, `.`, a nonempty word run.
Maximal (greedy) runs are exact here because `@` and `.` are not word
characters. -/
def emailFrom (s : Str) : Bool :=
  let w1 := s.takeWhile isWordChar
  match s.dropWhile isWordChar with
  | '@' :: r2 =>
    !w1.isEmpty &&
      (let w2 := r2.takeWhile isWordChar
       match r2.dropWhile isWordChar with
       | '.' :: r4 => !w2.isEmpty && !(r4.takeWhile isWordChar).isEmpty
       | _ => false)
  | _ => false

/-- `re.search(r'\b\w+@\w+\.\w+\b', text)`: a word-boundary match exists iff
an email-shaped segment starts at some position (extending the first run left
to its maximal start supplies the boundaries). -/
def hasEmail : Str → Bool
  | [] => false
  | l@(_ :: rest) => emailFrom l || hasEmail rest

/-- Post status (db/models_utils.py, `PostStatus`). -/
inductive PostStatus
  | NEW
  | GENERATED
  | PUBLISHED
  | FAILED
deriving DecidableEq

/-- A row of `news_items` (db/models.py, `NewsItem`).  All fields shown
`nullable=False` in the schema are plain; optional columns are `Option`.
Identifiers and timestamps are abstracted to `Nat` (uuid4 / datetime values
are opaque to every claim).  `created_atL` is the (sic) creation-timestamp
column name in the source. -/
structure NewsItem where
  id : Nat
  source : Str
  title : Str
  summary : Str
  url : Str
  img : Option Str
  author : Str
  published_at : Nat
  created_atL : Nat
  raw_text : Option Str
deriving DecidableEq

/-- A row of `posts` (db/models.py, `Post`).  `published_at` is declared
`TimeStamp` (NOT NULL, default `datetime.now`), so it is a plain `Nat` that is
set at insertion time. -/
structure Post where
  id : Nat
  news_id : Nat
  generated_text : Option Str
  published_at : Nat
  status : PostStatus
  created_at : Nat
deriving DecidableEq

/-- A row of `keywords` (db/models.py, `Keyword`). -/
structure Keyword where
  id : Nat
  word : Str
  created_at : Nat
deriving DecidableEq

/-- The store.  Each list holds the table's rows in the store's physical row
order; the queries issued by the passes (`.all()` with no `order_by`) return
rows in exactly this unspecified order, which the embedding keeps abstract by
quantifying over it. -/
structure DB where
  items : List NewsItem
  posts : List Post
  keywords : List Keyword
deriving DecidableEq

/-- A normalized candidate record produced by an ingestion adapter: the dict
consumed by `save_news_items` (utils.py).  Fields read with `.get` and no
default are `Option`; `title` is read with `item_data['title']` and assumed
present (an adapter must not return items with an empty title). -/
structure Candidate where
  source : Option Str
  title : Str
  summary : Option Str
  url : Option Str
  img : Option Str
  author : Str
  published_at : Nat
  raw_text : Option Str
deriving DecidableEq

/-- The fixed promotional keyword list `ad_keywords` of `is_advertisement`
(utils.py lines 162-175), transcribed verbatim. -/
def ad_keywords : List Str :=
  ["реклама".data, "спонсор".data, "партнер".data, "анонс".data,
   "pr ".data, "pr:".data, "pr-".data,
   "спонсорский".data, "партнерский".data, "коммерческий".data, "маркетинг".data,
   "#ad".data, "#sponsored".data, "#реклама".data, "#спонсор".data, "#анонс".data,
   "#pr".data, "#partner".data, "#commercial".data,
   "купить".data, "цена".data, "скидка".data, "акция".data, "распродажа".data,
   "товар".data, "заказать".data, "доставка".data, "оплата".data,
   "рублей".data, "руб.".data,
   "пишите в лс".data, "писать в лс".data, "в личные сообщения".data,
   "подробнее в профиле".data, "ссылка в био".data]

/-- `full_text = f"{title} {summary}"` over the lowered title and summary
(utils.py lines 156-159). -/
def fullTextL (n : NewsItem) : Str := pyLower n.title ++ ' ' :: pyLower n.summary

/-- Ad-keyword rule: some promotional keyword occurs in the lowered
title-space-summary text (utils.py lines 178-181). -/
def adKeywordRule (n : NewsItem) : Bool :=
  ad_keywords.any (fun kw => isSubstring kw (fullTextL n))

/-- Structural rule 1: the raw title starts with three emoji-class characters
(utils.py lines 186-190). -/
def emojiRule (n : NewsItem) : Bool := emojiRuleFires n.title

/-- Structural rule 2: `len(news_item.title or '') < 10` — note, no trimming
(utils.py lines 193-195). -/
def shortTitleRule (n : NewsItem) : Bool := decide (n.title.length < 10)

/-- Structural rule 3: `news_item.title and news_item.title.isupper() and
len(news_item.title) > 5` (utils.py line 198). -/
def capsRule (n : NewsItem) : Bool :=
  !n.title.isEmpty && pyIsUpper n.title && decide (5 < n.title.length)

/-- Structural rule 4: more than three `!` in the title (utils.py line 203). -/
def exclamRule (n : NewsItem) : Bool := decide (3 < n.title.count '!')

/-- Structural rule 5: lowered author contains `bot` or ends with `_bot`
(utils.py line 208). -/
def botAuthorRule (n : NewsItem) : Bool :=
  isSubstring "bot".data (pyLower n.author) || endsWith "_bot".data (pyLower n.author)

/-- Structural rule 6: combined count of `http://`, `https://`, `t.me/` in the
lowered summary exceeds 2 (utils.py lines 213-216). -/
def linksRule (n : NewsItem) : Bool :=
  decide (2 < countSub "http://".data (pyLower n.summary) +
            countSub "https://".data (pyLower n.summary) +
            countSub "t.me/".data (pyLower n.summary))

/-- Structural rule 7: a contact pattern (`@handle`, 10+ digit run, or email)
occurs in the lowered title-space-summary text (utils.py lines 219-227). -/
def contactRule (n : NewsItem) : Bool :=
  hasAtHandle (fullTextL n) || hasTenDigitRun (fullTextL n) || hasEmail (fullTextL n)

/-- The maximum repetition count among the given words (the `max` over Python's
`word_counts` dict values, 0 when empty). -/
def maxRepeats (ws : List Str) : Nat := (ws.map (fun w => ws.count w)).foldr max 0

/-- Structural rule 8: the lowered summary has more than 10 words, fewer than
50 words, and some word longer than 3 characters repeats more than 3 times
(utils.py lines 230-240). -/
def repeatRule (n : NewsItem) : Bool :=
  let ws := pySplit (pyLower n.summary)
  decide (10 < ws.length) &&
    decide (3 < maxRepeats (ws.filter (fun w => 3 < w.length))) &&
    decide (ws.length < 50)

/-- `is_advertisement` (utils.py lines 154-242).  The Python cascade of
early-returning `if` blocks, each returning `True`, with a final
`return False`, is exactly the disjunction of the rules in source order. -/
def is_advertisement (n : NewsItem) : Bool :=
  adKeywordRule n || emojiRule n || shortTitleRule n || capsRule n ||
    exclamRule n || botAuthorRule n || linksRule n || contactRule n || repeatRule n

/-- `search_text = f"{news_item.title or ''} {news_item.summary or ''}".lower()`
(utils.py line 262). -/
def searchText (n : NewsItem) : Str := pyLower (n.title ++ ' ' :: n.summary)

/-- `filter_news_by_keywords` (utils.py lines 245-271): reject advertisements;
with no keywords admit everything; otherwise admit iff some lowered keyword
occurs in the lowered title-space-summary text. -/
def filter_news_by_keywords (kws : List Keyword) (n : NewsItem) : Bool :=
  if is_advertisement n then false
  else if kws.isEmpty then true
  else kws.any (fun k => isSubstring (pyLower k.word) (searchText n))

/-- `check_duplicate` (utils.py lines 16-28).  `if url:` / `if title:` are
Python truthiness tests (skipped for `None` and for the empty string); each
branch queries for a stored `NewsItem` with equal `url` (resp. `title`). -/
def check_duplicate (items : List NewsItem) (url title : Option Str) : Bool :=
  (optTruthy url && items.any (fun it => it.url == url.getD [])) ||
    (optTruthy title && items.any (fun it => it.title == title.getD []))

/-- One iteration of the `save_news_items` loop (utils.py lines 35-62) on a
single candidate: skip when `check_duplicate` holds, otherwise insert one
`NewsItem` and one companion `Post` (status defaults to NEW).  `fresh` is the
freshly generated row id (uuid4 in the source) and `now` the insertion
timestamp.  A candidate whose `url` is `None` is rejected by the NOT NULL
`url` column at flush; the exception handler then continues the loop, so no
row is inserted.  Returns the updated store and whether `saved_count` was
incremented. -/
def saveOne (db : DB) (fresh now : Nat) (c : Candidate) : DB × Bool :=
  if check_duplicate db.items c.url (some c.title) then (db, false)
  else
    match c.url with
    | none => (db, false)
    | some u =>
      let ni : NewsItem :=
        { id := fresh, source := c.source.getD "unknown".data, title := c.title,
          summary := c.summary.getD [], url := u, img := c.img,
          author := c.author, published_at := c.published_at,
          created_atL := now, raw_text := c.raw_text }
      let p : Post :=
        { id := fresh, news_id := fresh, generated_text := none,
          published_at := now, status := PostStatus.NEW, created_at := now }
      ({ db with items := db.items ++ [ni], posts := db.posts ++ [p] }, true)

/-- `save_news_items` (utils.py lines 31-72): process the candidates in order
against the running session state (earlier inserts are flushed, hence visible
to later duplicate checks) and return the store and `saved_count`. -/
def save_news_items (db : DB) (fresh now : Nat) : List Candidate → DB × Nat
  | [] => (db, 0)
  | c :: rest =>
    match saveOne db fresh now c with
    | (db', inserted) =>
      match save_news_items db' (fresh + 1) (now + 1) rest with
      | (db'', n) => (db'', (if inserted then 1 else 0) + n)

/-- A schema-level insert of one `news_items` row: `session.add` + `flush`
checked against the declared table constraints.  The only uniqueness the
schema declares is the primary key `id` (db/models_utils.py lines 8-14: the
`URL` column type is `index=True`, not `unique=True`, and `title` is a plain
`String` column), so the insert fails only on a duplicate `id`. -/
def insertNewsItem (items : List NewsItem) (it : NewsItem) : Option (List NewsItem) :=
  if items.any (fun x => x.id == it.id) then none else some (items ++ [it])

/-- The truncated summary of the fallback generator: `news.summary[:200]`,
with `"..."` appended iff the original summary is longer than 200 characters
(ai/generator.py lines 66-68). -/
def truncSummary (news : NewsItem) : Str :=
  news.summary.take 200 ++ (if 200 < news.summary.length then "...".data else [])

/-- The category emoji of the fallback generator, selected by keyword matches
in the lowered title (ai/generator.py lines 71-77). -/
def categoryEmoji (title : Str) : Str :=
  if isSubstring "технолог".data (pyLower title) || isSubstring "программ".data (pyLower title) then
    "💻".data
  else if isSubstring "игр".data (pyLower title) then "🎮".data
  else if isSubstring "бизнес".data (pyLower title) then "💼".data
  else "📰".data

/-- The `post_parts` list of the fallback generator (ai/generator.py lines
80-88): emoji-space-title, blank, truncated summary, blank, the read-more line
carrying the canonical URL, blank, fixed hashtags. -/
def fallbackParts (news : NewsItem) : List Str :=
  [categoryEmoji news.title ++ ' ' :: (if news.title.isEmpty then "Новости".data else news.title),
   [],
   truncSummary news,
   [],
   "📖 Читать полностью: ".data ++ news.url,
   [],
   "#новости #технологии".data]

/-- `"\n".join(parts)`. -/
def joinNL : List Str → Str
  | [] => []
  | [p] => p
  | p :: rest => p ++ '\n' :: joinNL rest

/-- `generate_fallback_post` (ai/generator.py lines 56-97): keep the parts
that are nonempty after stripping, and join them with newlines.  The `try`
body is total, so the `except` branch returning `None` is unreachable. -/
def generate_fallback_post (news : NewsItem) : Str :=
  joinNL ((fallbackParts news).filter (fun part => !(pyStrip part).isEmpty))

/-- `generate_posts` (ai/generator.py lines 14-53).  `adapter` is the external
`make_request` client; a falsy (None or empty) reply falls through to the
local fallback, and a falsy fallback yields `None`. -/
def generate_posts (adapter : NewsItem → Option Str) (news : NewsItem) : Option Str :=
  let viaAI : Option Str :=
    match adapter news with
    | some t => if pyTruthy t then some t else none
    | none => none
  match viaAI with
  | some t => some t
  | none =>
    let fb := generate_fallback_post news
    if pyTruthy fb then some fb else none

/-- The outcome of the generate pass on one `Post`: the updated row, whether
the generation adapter (`make_request`, via `generate_posts`) was invoked for
it, and whether `generated_count` was incremented. -/
structure GenOutcome where
  post : Post
  invoked : Bool
  counted : Bool
deriving DecidableEq

/-- One iteration of the `generate_posts_task` loop (celery/tasks.py lines
120-153) on one selected `Post` (the loop runs over the posts whose status is
NEW; every other post is untouched, which the guard models).  Missing news
item: `continue` (row unchanged); admission gate fails: status FAILED and the
adapter is never invoked; otherwise `generate_posts` is called and a falsy
result sets FAILED while a truthy text sets GENERATED and stores the text. -/
def generateStep (adapter : NewsItem → Option Str) (items : List NewsItem)
    (kws : List Keyword) (p : Post) : GenOutcome :=
  if p.status = PostStatus.NEW then
    match items.find? (fun it => it.id == p.news_id) with
    | none => ⟨p, false, false⟩
    | some item =>
      if filter_news_by_keywords kws item then
        match generate_posts adapter item with
        | none => ⟨{ p with status := PostStatus.FAILED }, true, false⟩
        | some txt =>
          if txt.isEmpty then ⟨{ p with status := PostStatus.FAILED }, true, false⟩
          else ⟨{ p with generated_text := some txt, status := PostStatus.GENERATED }, true, true⟩
      else ⟨{ p with status := PostStatus.FAILED }, false, false⟩
  else ⟨p, false, false⟩

/-- `generate_posts_task` (celery/tasks.py lines 95-177): select the NEW posts
(`query(Post).filter(status == NEW).all()`, no `order_by`), process each
selected post in selection order, and return the store and `generated_count`.
Iterating the selected snapshot while mutating rows in place equals mapping
the per-post step over the whole table, because the step fixes every
unselected row; the early return on an empty selection is the same map. -/
def generate_posts_task (adapter : NewsItem → Option Str) (db : DB) : DB × Nat :=
  let outs := db.posts.map (generateStep adapter db.items db.keywords)
  ({ db with posts := outs.map GenOutcome.post }, outs.countP GenOutcome.counted)

/-- The outcome of the publish pass on one `Post`: the updated row, whether
the publishing adapter was invoked, and whether the `published` / `failed`
totals were incremented. -/
structure PubOutcome where
  post : Post
  invoked : Bool
  publishedInc : Bool
  failedInc : Bool
deriving DecidableEq

/-- One iteration of the `publish_posts_task` loop (celery/tasks.py lines
196-224) on one selected `Post` (the loop runs over the posts whose status is
GENERATED).  `if not post.generated_text: continue` skips a falsy text (None
or empty) without any change or count; otherwise `publish_post` decides
PUBLISHED (with `published_at = now`) or FAILED. -/
def publishStep (pub : Str → Bool) (now : Nat) (p : Post) : PubOutcome :=
  if p.status = PostStatus.GENERATED then
    match p.generated_text with
    | none => ⟨p, false, false, false⟩
    | some t =>
      if t.isEmpty then ⟨p, false, false, false⟩
      else if pub t then
        ⟨{ p with status := PostStatus.PUBLISHED, published_at := now }, true, true, false⟩
      else ⟨{ p with status := PostStatus.FAILED }, true, false, true⟩
  else ⟨p, false, false, false⟩

/-- `publish_posts_task` (celery/tasks.py lines 180-241): select the GENERATED
posts (no `order_by`), process each in selection order, and return the store
with the `published` and `failed` totals. -/
def publish_posts_task (pub : Str → Bool) (now : Nat) (db : DB) : DB × Nat × Nat :=
  let outs := db.posts.map (publishStep pub now)
  ({ db with posts := outs.map PubOutcome.post },
    outs.countP PubOutcome.publishedInc, outs.countP PubOutcome.failedInc)

/-- `find_by_status`: `session.query(Post).filter(Post.status == s).all()`
(celery/tasks.py lines 114 and 196).  The query has no `order_by`, so it
returns the matching rows in the store's row order, which `filter`
preserves. -/
def find_by_status (db : DB) (s : PostStatus) : List Post :=
  db.posts.filter (fun p => p.status == s)

/-- Row order is creation-time ascending. -/
def sortedByCreation : List Post → Bool
  | [] => true
  | a :: rest => rest.all (fun b => a.created_at ≤ b.created_at) && sortedByCreation rest

/-- Convenience constructor for concrete `NewsItem` rows. -/
def mkItem (title summary author url : Str) : NewsItem :=
  { id := 0, source := "test".data, title := title, summary := summary, url := url,
    img := none, author := author, published_at := 0, created_atL := 0, raw_text := none }

/-- A generation adapter that always fails (the OpenAI client returning
`None`). -/
def noneAdapter : NewsItem → Option Str := fun _ => none

/-- A publishing adapter that always succeeds. -/
def okPublisher : Str → Bool := fun _ => true

/-- Gate-failing item for the C1 witness: not an advertisement, but its text
matches no keyword. -/
def c1item : NewsItem :=
  mkItem "interesting research results".data "nothing relevant here".data "alice".data "https://x/1".data

/-- Keyword table for the C1 witness. -/
def c1kws : List Keyword := [{ id := 1, word := "quantum".data, created_at := 0 }]

/-- NEW post owning `c1item`, for the C1 witness. -/
def c1post : Post :=
  { id := 1, news_id := 0, generated_text := none, published_at := 0,
    status := PostStatus.NEW, created_at := 0 }

/-- A PUBLISHED (terminal) post, for the C2 witness. -/
def c2post : Post :=
  { id := 2, news_id := 2, generated_text := some "text".data, published_at := 9,
    status := PostStatus.PUBLISHED, created_at := 1 }

/-- First insert of the C3 counterexample race. -/
def c3a : NewsItem := mkItem "Duplicate title".data "s".data "a".data "https://x/dup".data

/-- Second insert of the C3 counterexample race: the same (URL, title)
identity key under a different freshly generated id. -/
def c3b : NewsItem := { c3a with id := 1 }

/-- Row for the amended-C3 witness. -/
def c3w : NewsItem := { c3a with id := 7, title := "Other".data }

/-- Two NEW posts whose physical row order is not creation-time order, for the
C4 counterexample. -/
def c4p1 : Post :=
  { id := 1, news_id := 1, generated_text := none, published_at := 0,
    status := PostStatus.NEW, created_at := 5 }

/-- See `c4p1`. -/
def c4p2 : Post :=
  { id := 2, news_id := 2, generated_text := none, published_at := 0,
    status := PostStatus.NEW, created_at := 3 }

/-- Store whose row order disagrees with creation-time order. -/
def c4db : DB := { items := [], posts := [c4p1, c4p2], keywords := [] }

/-- Store whose row order agrees with creation-time order, for the amended-C4
witness. -/
def c4dbSorted : DB := { items := [], posts := [c4p2, c4p1], keywords := [] }

/-- C5 counterexample: title of untrimmed length 10 whose trimmed length is 8.
No classifier rule fires on this item. -/
def c5item : NewsItem := mkItem "abcdefgh  ".data [] "x".data "u".data

/-- Witness item for the amended C5: a title shorter than 10 characters. -/
def c5short : NewsItem := mkItem "short".data "any summary".data "bob".data "u".data

/-- Witness item for C6: three leading emoji. -/
def c6item : NewsItem := mkItem "😀😀😀Sale now".data "s".data "a".data "u".data

/-- Stored row with an empty-string URL, for the C7 counterexample. -/
def c7stored : NewsItem := mkItem "A".data "s".data "a".data []

/-- Candidate whose URL equals the stored empty-string URL but whose title is
new: `if url:` is falsy, so the URL duplicate check is skipped. -/
def c7cand : Candidate :=
  { source := some "test".data, title := "B".data, summary := some "s".data,
    url := some [], img := none, author := "a".data, published_at := 0, raw_text := none }

/-- Store for the C7 counterexample. -/
def c7db : DB := { items := [c7stored], posts := [], keywords := [] }

/-- Stored row for the amended-C7 witness. -/
def c7wStored : NewsItem := mkItem "Old news".data "s".data "a".data "https://x/1".data

/-- Candidate repeating `c7wStored`'s (nonempty) URL, for the amended-C7
witness. -/
def c7wCand : Candidate :=
  { source := some "test".data, title := "Fresh title".data, summary := some "s".data,
    url := some "https://x/1".data, img := none, author := "a".data,
    published_at := 0, raw_text := none }

/-- Store for the amended-C7 witness. -/
def c7wDb : DB := { items := [c7wStored], posts := [], keywords := [] }

/-- Store with no NEW post, for the C8 witness. -/
def c8db : DB :=
  { items := [], keywords := [],
    posts := [{ id := 1, news_id := 1, generated_text := some "t".data, published_at := 0,
                status := PostStatus.GENERATED, created_at := 0 }] }

/-- C9 counterexample: a whitespace-only summary.  Its truncated form `"  "`
is dropped by the `part.strip()` filter and occurs nowhere in the fallback
text. -/
def c9item : NewsItem := mkItem "Some headline".data "  ".data "a".data "https://x/9".data

/-- Witness item for the amended C9. -/
def c9witem : NewsItem :=
  mkItem "Новость дня".data "Команда выпустила обновление".data "a".data "https://x/10".data

/-- GENERATED post whose generated text is empty, for C10. -/
def c10post : Post :=
  { id := 10, news_id := 10, generated_text := some [], published_at := 0,
    status := PostStatus.GENERATED, created_at := 0 }

/-! ### Helper lemmas -/

theorem startsWith_iff (p s : Str) : startsWith p s = true ↔ ∃ r, s = p ++ r := by
  induction p generalizing s with
  | nil => simp [startsWith]
  | cons a p ih =>
    cases s with
    | nil => simp [startsWith]
    | cons b s =>
      simp only [startsWith, Bool.and_eq_true, beq_iff_eq, ih, List.cons_append,
        List.cons.injEq]
      constructor
      · rintro ⟨rfl, r, rfl⟩; exact ⟨r, rfl, rfl⟩
      · rintro ⟨r, rfl, rfl⟩; exact ⟨rfl, r, rfl⟩

theorem isSubstring_iff (p s : Str) : isSubstring p s = true ↔ ∃ l r, s = l ++ p ++ r := by
  induction s with
  | nil =>
    simp only [isSubstring, List.isEmpty_iff]
    constructor
    · rintro rfl; exact ⟨[], [], rfl⟩
    · rintro ⟨l, r, h⟩
      exact (List.append_eq_nil.mp (List.append_eq_nil.mp h.symm).1).2
  | cons b s ih =>
    simp only [isSubstring, Bool.or_eq_true, startsWith_iff, ih]
    constructor
    · rintro (⟨r, hr⟩ | ⟨l, r, hr⟩)
      · exact ⟨[], r, by simpa using hr⟩
      · exact ⟨b :: l, r, by simp [hr]⟩
    · rintro ⟨l, r, h⟩
      cases l with
      | nil => exact Or.inl ⟨r, by simpa using h⟩
      | cons x l =>
        rw [List.cons_append, List.cons_append] at h
        injection h with h1 h2
        exact Or.inr ⟨l, r, h2⟩

theorem isSubstring_append_right (p s t : Str) (h : isSubstring p s = true) :
    isSubstring p (t ++ s) = true := by
  obtain ⟨l, r, rfl⟩ := (isSubstring_iff p s).mp h
  exact (isSubstring_iff p _).mpr ⟨t ++ l, r, by simp⟩

theorem isSubstring_append_left (p s t : Str) (h : isSubstring p s = true) :
    isSubstring p (s ++ t) = true := by
  obtain ⟨l, r, rfl⟩ := (isSubstring_iff p s).mp h
  exact (isSubstring_iff p _).mpr ⟨l, r ++ t, by simp⟩

theorem isSubstring_refl (p : Str) : isSubstring p p = true :=
  (isSubstring_iff p p).mpr ⟨[], [], by simp⟩

theorem isSubstring_joinNL (x p : Str) (parts : List Str) (hmem : p ∈ parts)
    (hx : isSubstring x p = true) : isSubstring x (joinNL parts) = true := by
  induction parts with
  | nil => cases hmem
  | cons q rest ih =>
    cases rest with
    | nil =>
      have hpq : p = q := List.mem_singleton.mp hmem
      subst hpq
      simpa [joinNL] using hx
    | cons q2 rest2 =>
      have hstep : joinNL (q :: q2 :: rest2) = (q ++ ['\n']) ++ joinNL (q2 :: rest2) := by
        simp [joinNL]
      rcases List.mem_cons.mp hmem with rfl | hmem2
      · rw [hstep, List.append_assoc]
        exact isSubstring_append_left x p _ hx
      · rw [hstep]
        exact isSubstring_append_right x _ (q ++ ['\n']) (ih hmem2)

theorem mem_dropWhile_of_mem {c : Char} {l : Str} (hc : c ∈ l)
    (hns : isPySpace c = false) : c ∈ l.dropWhile isPySpace := by
  induction l with
  | nil => cases hc
  | cons a rest ih =>
    by_cases ha : isPySpace a = true
    · rcases List.mem_cons.mp hc with rfl | hrest
      · rw [ha] at hns; cases hns
      · simpa [List.dropWhile_cons, ha] using ih hrest
    · simpa [List.dropWhile_cons, Bool.eq_false_iff.mpr ha] using hc

theorem pyStrip_ne_nil {c : Char} {l : Str} (hc : c ∈ l) (hns : isPySpace c = false) :
    pyStrip l ≠ [] := by
  have h1 : c ∈ l.dropWhile isPySpace := mem_dropWhile_of_mem hc hns
  have h2 : c ∈ (l.dropWhile isPySpace).reverse := List.mem_reverse.mpr h1
  have h3 : c ∈ (l.dropWhile isPySpace).reverse.dropWhile isPySpace :=
    mem_dropWhile_of_mem h2 hns
  have h4 : c ∈ pyStrip l := List.mem_reverse.mpr h3
  exact List.ne_nil_of_mem h4

theorem joinNL_ne_nil (parts : List Str) (p : Str) (hmem : p ∈ parts) (hp : p ≠ []) :
    joinNL parts ≠ [] := by
  cases parts with
  | nil => cases hmem
  | cons q rest =>
    cases rest with
    | nil =>
      have hpq : p = q := List.mem_singleton.mp hmem
      subst hpq
      simpa [joinNL] using hp
    | cons q2 rest2 => simp [joinNL]

theorem map_eq_self_of {α : Type} (l : List α) (f : α → α) (h : ∀ a ∈ l, f a = a) :
    l.map f = l := by
  induction l with
  | nil => rfl
  | cons a rest ih =>
    rw [List.map_cons, h a (List.mem_cons_self a rest),
      ih (fun b hb => h b (List.mem_cons_of_mem a hb))]

theorem countP_eq_zero_of {α : Type} (l : List α) (f : α → Bool)
    (h : ∀ a ∈ l, f a = false) : l.countP f = 0 := by
  induction l with
  | nil => rfl
  | cons a rest ih =>
    rw [List.countP_cons, h a (List.mem_cons_self a rest),
      ih (fun b hb => h b (List.mem_cons_of_mem a hb))]
    rfl

theorem sortedByCreation_filter (f : Post → Bool) (l : List Post)
    (h : sortedByCreation l = true) : sortedByCreation (l.filter f) = true := by
  induction l with
  | nil => simp [sortedByCreation]
  | cons a rest ih =>
    simp only [sortedByCreation, Bool.and_eq_true, List.all_eq_true,
      decide_eq_true_eq] at h
    obtain ⟨hall, hrest⟩ := h
    rw [List.filter_cons]
    by_cases hf : f a = true
    · simp only [hf, if_true, sortedByCreation, Bool.and_eq_true, List.all_eq_true,
        decide_eq_true_eq]
      exact ⟨fun b hb => hall b (List.mem_of_mem_filter hb), ih hrest⟩
    · simp only [hf, if_false, Bool.false_eq_true]
      exact ih hrest

/-! ### Claims -/

/-- C3 (counterexample): the store schema does not enforce the claimed unique
constraint on the (URL, title) identity key.  `c3a` and `c3b` carry the same
URL and the same title under distinct fresh primary keys, and both
schema-level inserts succeed, where the claim requires the second to fail
with a uniqueness violation. -/
theorem C3_counterexample :
    c3a.url = c3b.url ∧ c3a.title = c3b.title ∧ c3a.id ≠ c3b.id ∧
      insertNewsItem [] c3a = some [c3a] ∧ insertNewsItem [c3a] c3b = some [c3a, c3b] := by
  refine ⟨rfl, rfl, by decide, rfl, by decide⟩

/-- C3 (amended): the only uniqueness the `news_items` schema declares is the
primary key `id` (the URL column is declared `index=True`, not unique, and
`title` is a plain column), so a schema-level insert succeeds exactly when the
row's id is fresh — regardless of whether its (URL, title) identity key
already exists.  Racing inserts of the same identity key under distinct fresh
ids therefore both succeed, and duplicate suppression rests solely on the
non-atomic `check_duplicate` pre-check in `save_news_items`. -/
theorem C3_insert_uniqueness (items : List NewsItem) (it : NewsItem) :
    insertNewsItem items it = some (items ++ [it]) ↔ ∀ x ∈ items, x.id ≠ it.id := by
  constructor
  · intro h x hx hid
    have hany : items.any (fun x => x.id == it.id) = true :=
      List.any_eq_true.mpr ⟨x, hx, by simp [hid]⟩
    simp [insertNewsItem, hany] at h
  · intro h
    cases hany : items.any (fun x => x.id == it.id) with
    | true =>
      obtain ⟨x, hx, hbe⟩ := List.any_eq_true.mp hany
      exact absurd (by simpa using hbe) (h x hx)
    | false => simp [insertNewsItem, hany]

/-- C3 witness: a fresh-id insert succeeds. -/
theorem C3_witness : insertNewsItem [c3a] c3w = some [c3a, c3w] :=
  (C3_insert_uniqueness [c3a] c3w).mpr (by decide)

/-- C4 (counterexample): the selection queries of the passes carry no
`ORDER BY`, so `find_by_status` returns matching rows in the store's physical
row order.  In the store `c4db` both posts are NEW, the row order is
[created_at 5, created_at 3], and the selection is not in creation-time
ascending order, contradicting the claimed ordering guarantee. -/
theorem C4_counterexample :
    (find_by_status c4db PostStatus.NEW).map Post.created_at = [5, 3] ∧
      sortedByCreation (find_by_status c4db PostStatus.NEW) = false := by decide

/-- C4 (amended): `find_by_status` returns the matching units in the store's
row order (the query adds no ordering), and each pass processes them in that
order; the selection is in creation-time ascending order exactly when the
store's row order already is, since filtering preserves that order. -/
theorem C4_row_order (db : DB) (s : PostStatus)
    (h : sortedByCreation db.posts = true) :
    find_by_status db s = db.posts.filter (fun p => p.status == s) ∧
      sortedByCreation (find_by_status db s) = true :=
  ⟨rfl, sortedByCreation_filter _ _ h⟩

/-- C4 witness: on a store whose row order is creation-ascending, the NEW
selection is creation-ascending. -/
theorem C4_witness :
    find_by_status c4dbSorted PostStatus.NEW =
        c4dbSorted.posts.filter (fun p => p.status == PostStatus.NEW) ∧
      sortedByCreation (find_by_status c4dbSorted PostStatus.NEW) = true :=
  C4_row_order c4dbSorted PostStatus.NEW (by decide)

/-- C5 (counterexample): the classifier compares the untrimmed title length
(`len(news_item.title or '') < 10`, no strip), so the ten-character title
`"abcdefgh  "` — whose whitespace-trimmed length is 8 — is not classified as
an advertisement, contradicting the claim's trimmed-length rule. -/
theorem C5_counterexample :
    (pyStrip c5item.title).length < 10 ∧ 10 ≤ c5item.title.length ∧
      is_advertisement c5item = false := by decide

/-- C5 (amended): for every title of untrimmed length fewer than 10
characters, `is_advertisement` reports true regardless of summary and author;
the code applies no whitespace trimming before the length test. -/
theorem C5_short_title (n : NewsItem) (h : n.title.length < 10) :
    is_advertisement n = true := by
  have hrule : shortTitleRule n = true := by simp [shortTitleRule, h]
  simp [is_advertisement, hrule]

/-- C5 witness: a five-character title is classified as advertisement. -/
theorem C5_witness : c5short.title.length < 10 ∧ is_advertisement c5short = true :=
  ⟨by decide, C5_short_title c5short (by decide)⟩

/-- C6: a title beginning with three characters of the classifier's emoji
ranges fires the leading-emoji rule and classifies the item as advertisement;
with only two leading emoji (the third character outside the ranges) the
leading-emoji rule does not fire. -/
theorem C6_leading_emoji :
    (∀ (n : NewsItem) (a b c : Char) (rest : Str),
        n.title = a :: b :: c :: rest →
        isEmojiChar a = true → isEmojiChar b = true → isEmojiChar c = true →
        emojiRule n = true ∧ is_advertisement n = true) ∧
      (∀ (t : Str) (a b c : Char) (rest : Str),
        t = a :: b :: c :: rest →
        isEmojiChar a = true → isEmojiChar b = true → isEmojiChar c = false →
        emojiRuleFires t = false) := by
  constructor
  · intro n a b c rest ht ha hb hc
    have hfire : emojiRule n = true := by
      simp [emojiRule, ht, emojiRuleFires, ha, hb, hc]
    exact ⟨hfire, by simp [is_advertisement, hfire]⟩
  · intro t a b c rest ht ha hb hc
    simp [ht, emojiRuleFires, hc]

/-- C6 witness: three leading `😀` classify as ad; two leading `😀` followed
by `X` do not fire the emoji rule. -/
theorem C6_witness :
    (emojiRule c6item = true ∧ is_advertisement c6item = true) ∧
      emojiRuleFires ('😀' :: '😀' :: 'X' :: "rest".data) = false :=
  ⟨C6_leading_emoji.1 c6item '😀' '😀' '😀' "Sale now".data (by decide)
      (by decide) (by decide) (by decide),
    C6_leading_emoji.2 _ '😀' '😀' 'X' "rest".data rfl (by decide) (by decide) (by decide)⟩

/-- C8: running the generate pass on a store with no NEW post is a no-op: the
task returns the unchanged store and a generated-count of 0, writing nothing
to any row. -/
theorem C8_generate_noop (adapter : NewsItem → Option Str) (db : DB)
    (h : ∀ p ∈ db.posts, p.status ≠ PostStatus.NEW) :
    generate_posts_task adapter db = (db, 0) := by
  obtain ⟨items, posts, kws⟩ := db
  simp only at h
  have hstep : ∀ p ∈ posts, generateStep adapter items kws p = ⟨p, false, false⟩ :=
    fun p hp => by simp [generateStep, h p hp]
  have h1 : (posts.map (generateStep adapter items kws)).map GenOutcome.post = posts := by
    rw [List.map_map]
    exact map_eq_self_of posts _ (fun p hp => by rw [Function.comp_apply, hstep p hp])
  have h2 : (posts.map (generateStep adapter items kws)).countP GenOutcome.counted = 0 := by
    apply countP_eq_zero_of
    intro o ho
    obtain ⟨p, hp, rfl⟩ := List.mem_map.mp ho
    rw [hstep p hp]
  simp [generate_posts_task, h1, h2]

/-- C8 witness: on a store holding one GENERATED post, the generate pass
returns the store unchanged with count 0. -/
theorem C8_witness : generate_posts_task noneAdapter c8db = (c8db, 0) :=
  C8_generate_noop noneAdapter c8db (by decide)

theorem categoryEmoji_spec (t : Str) :
    ∃ e, categoryEmoji t = [e] ∧ isPySpace e = false := by
  unfold categoryEmoji
  split_ifs <;> exact ⟨_, rfl, by decide⟩

theorem isSubstring_nil (s : Str) : isSubstring [] s = true :=
  (isSubstring_iff [] s).mpr ⟨[], s, by simp⟩

/-- C1: the admission gate of the generate pass.  `filter_news_by_keywords`
returns true iff the item is not classified as advertisement and it matches
the interest filter (empty keyword table, or some lower-cased keyword occurs
in the lower-cased title-space-summary text); a selected NEW post whose item
fails this gate is set to FAILED and the generation adapter is never invoked
for it. -/
theorem C1_admission_gate (adapter : NewsItem → Option Str) (items : List NewsItem)
    (kws : List Keyword) (p : Post) (item : NewsItem) :
    (∀ n : NewsItem, filter_news_by_keywords kws n =
        (!is_advertisement n &&
          (kws.isEmpty || kws.any (fun k => isSubstring (pyLower k.word) (searchText n))))) ∧
    (p.status = PostStatus.NEW →
      items.find? (fun it => it.id == p.news_id) = some item →
      filter_news_by_keywords kws item = false →
      generateStep adapter items kws p =
        ⟨{ p with status := PostStatus.FAILED }, false, false⟩) := by
  constructor
  · intro n
    cases had : is_advertisement n with
    | true => simp [filter_news_by_keywords, had]
    | false =>
      cases hemp : kws.isEmpty with
      | true => simp [filter_news_by_keywords, had, hemp]
      | false => simp [filter_news_by_keywords, had, hemp]
  · intro hNew hfind hgate
    simp [generateStep, hNew, hfind, hgate]

/-- C1 witness: a non-advertisement item matching no keyword is rejected by
the gate, its NEW post is set to FAILED, and the adapter is not invoked. -/
theorem C1_witness :
    c1post.status = PostStatus.NEW ∧
      filter_news_by_keywords c1kws c1item = false ∧
      generateStep noneAdapter [c1item] c1kws c1post =
        ⟨{ c1post with status := PostStatus.FAILED }, false, false⟩ :=
  ⟨rfl, by decide,
    (C1_admission_gate noneAdapter [c1item] c1kws c1post c1item).2 rfl (by decide) (by decide)⟩

/-- C2: status changes of the automated passes are strictly forward.  Both
tasks act row-wise through their per-post steps; a PUBLISHED or FAILED post
is never modified by either pass; any post the generate pass changes was NEW
and becomes GENERATED or FAILED; any post the publish pass changes was
GENERATED and becomes PUBLISHED or FAILED. -/
theorem C2_monotonic_transitions (adapter : NewsItem → Option Str) (pub : Str → Bool)
    (now : Nat) (db : DB) :
    ((generate_posts_task adapter db).1.posts =
        db.posts.map (fun p => (generateStep adapter db.items db.keywords p).post)) ∧
    ((publish_posts_task pub now db).1.posts =
        db.posts.map (fun p => (publishStep pub now p).post)) ∧
    (∀ p : Post, p.status = PostStatus.PUBLISHED ∨ p.status = PostStatus.FAILED →
        (generateStep adapter db.items db.keywords p).post = p ∧
        (publishStep pub now p).post = p) ∧
    (∀ p : Post, (generateStep adapter db.items db.keywords p).post ≠ p →
        p.status = PostStatus.NEW ∧
        ((generateStep adapter db.items db.keywords p).post.status = PostStatus.GENERATED ∨
          (generateStep adapter db.items db.keywords p).post.status = PostStatus.FAILED)) ∧
    (∀ p : Post, (publishStep pub now p).post ≠ p →
        p.status = PostStatus.GENERATED ∧
        ((publishStep pub now p).post.status = PostStatus.PUBLISHED ∨
          (publishStep pub now p).post.status = PostStatus.FAILED)) := by
  refine ⟨?_, ?_, ?_, ?_, ?_⟩
  · simp [generate_posts_task, List.map_map, Function.comp]
  · simp [publish_posts_task, List.map_map, Function.comp]
  · intro p hp
    rcases hp with h | h <;> exact ⟨by simp [generateStep, h], by simp [publishStep, h]⟩
  · intro p hne
    by_cases hs : p.status = PostStatus.NEW
    · refine ⟨hs, ?_⟩
      rcases hfind : db.items.find? (fun it => it.id == p.news_id) with _ | item
      · exact absurd (by simp [generateStep, hs, hfind]) hne
      · by_cases hflt : filter_news_by_keywords db.keywords item = true
        · rcases hgen : generate_posts adapter item with _ | txt
          · right; simp [generateStep, hs, hfind, hflt, hgen]
          · by_cases hemp : txt.isEmpty = true
            · right; simp [generateStep, hs, hfind, hflt, hgen, hemp]
            · left; simp [generateStep, hs, hfind, hflt, hgen, hemp]
        · right; simp [generateStep, hs, hfind, hflt]
    · exact absurd (by simp [generateStep, hs]) hne
  · intro p hne
    by_cases hs : p.status = PostStatus.GENERATED
    · refine ⟨hs, ?_⟩
      rcases htxt : p.generated_text with _ | t
      · exact absurd (by simp [publishStep, hs, htxt]) hne
      · by_cases hemp : t.isEmpty = true
        · exact absurd (by simp [publishStep, hs, htxt, hemp]) hne
        · by_cases hpub : pub t = true
          · left; simp [publishStep, hs, htxt, hemp, hpub]
          · right; simp [publishStep, hs, htxt, hemp, hpub]
    · exact absurd (by simp [publishStep, hs]) hne

/-- C2 witness: a PUBLISHED post is untouched by both passes. -/
theorem C2_witness :
    (generateStep noneAdapter [] [] c2post).post = c2post ∧
      (publishStep okPublisher 0 c2post).post = c2post :=
  (C2_monotonic_transitions noneAdapter okPublisher 0
      { items := [], posts := [], keywords := [] }).2.2.1 c2post (Or.inl rfl)

/-- C7 (counterexample): a candidate whose URL is the empty string can repeat
a stored empty-string URL and still be admitted, because `if url:` is a Python
truthiness test: the URL duplicate check is skipped and, the titles differing,
`check_duplicate` returns false and `save_news_items` inserts a new `NewsItem`
and `Post`. -/
theorem C7_counterexample :
    c7cand.url = some c7stored.url ∧ c7stored ∈ c7db.items ∧
      check_duplicate c7db.items c7cand.url (some c7cand.title) = false ∧
      (saveOne c7db 5 5 c7cand).2 = true ∧
      (saveOne c7db 5 5 c7cand).1.items.length = c7db.items.length + 1 ∧
      (saveOne c7db 5 5 c7cand).1.posts.length = c7db.posts.length + 1 := by decide

/-- C7 (amended): for every candidate whose URL is a nonempty string equal to
the URL of some stored `NewsItem`, the deduplication gate rejects it —
`check_duplicate` returns true, `save_news_items` skips the candidate leaving
the store unchanged (no `NewsItem` and no `Post` inserted) with saved-count 0
— and the duplicate check itself performs no writes.  (A candidate whose URL
is empty or absent bypasses the URL check and is caught only by title.) -/
theorem C7_url_dedup (db : DB) (fresh now : Nat) (c : Candidate) (u : Str)
    (hu : c.url = some u) (hne : u ≠ []) (hex : ∃ it ∈ db.items, it.url = u) :
    check_duplicate db.items c.url (some c.title) = true ∧
      saveOne db fresh now c = (db, false) ∧
      save_news_items db fresh now [c] = (db, 0) := by
  obtain ⟨it, hit, hurl⟩ := hex
  have hany : db.items.any (fun x => x.url == (c.url).getD []) = true := by
    refine List.any_eq_true.mpr ⟨it, hit, ?_⟩
    rw [hu]
    simp [hurl]
  have htr : optTruthy c.url = true := by
    rw [hu]
    simpa [optTruthy] using hne
  have hdup : check_duplicate db.items c.url (some c.title) = true := by
    simp [check_duplicate, htr, hany]
  have hone : saveOne db fresh now c = (db, false) := by
    simp [saveOne, hdup]
  exact ⟨hdup, hone, by simp [save_news_items, hone]⟩

/-- C7 witness: a candidate repeating a stored nonempty URL is skipped. -/
theorem C7_witness :
    check_duplicate c7wDb.items c7wCand.url (some c7wCand.title) = true ∧
      saveOne c7wDb 5 5 c7wCand = (c7wDb, false) ∧
      save_news_items c7wDb 5 5 [c7wCand] = (c7wDb, 0) :=
  C7_url_dedup c7wDb 5 5 c7wCand "https://x/1".data rfl (by decide)
    ⟨c7wStored, by decide, rfl⟩

/-- C9 (counterexample): the fallback text need not contain the truncated
summary.  For a whitespace-only summary the truncated summary is `"  "`,
which the `part.strip()` filter drops from `post_parts`, and the two-space
string occurs nowhere in the resulting fallback text — even though the
adapter returned none and the fallback was used. -/
theorem C9_counterexample :
    truncSummary c9item = "  ".data ∧
      generate_posts noneAdapter c9item = some (generate_fallback_post c9item) ∧
      isSubstring (truncSummary c9item) (generate_fallback_post c9item) = false := by decide

/-- C9 (amended): whenever the generation adapter returns none,
`generate_posts` returns the deterministic local fallback text, which contains
the item's title, its canonical URL, and the category emoji selected by
keyword matches in the title; it also contains the summary truncated to 200
characters (with an ellipsis appended iff the summary exceeds 200 characters,
as `truncSummary` states) whenever that truncated summary has a
non-whitespace character — a whitespace-only truncated summary is dropped by
the `part.strip()` filter. -/
theorem C9_fallback (adapter : NewsItem → Option Str) (news : NewsItem)
    (h : adapter news = none) :
    generate_posts adapter news = some (generate_fallback_post news) ∧
      isSubstring news.title (generate_fallback_post news) = true ∧
      isSubstring news.url (generate_fallback_post news) = true ∧
      isSubstring (categoryEmoji news.title) (generate_fallback_post news) = true ∧
      ((pyStrip (truncSummary news)).isEmpty = false →
        isSubstring (truncSummary news) (generate_fallback_post news) = true) := by
  obtain ⟨e, hcat, hens⟩ := categoryEmoji_spec news.title
  have hhmem : "#новости #технологии".data ∈
      (fallbackParts news).filter (fun part => !(pyStrip part).isEmpty) :=
    List.mem_filter.mpr ⟨by simp [fallbackParts], by decide⟩
  have hfb : generate_fallback_post news =
      joinNL ((fallbackParts news).filter (fun part => !(pyStrip part).isEmpty)) := rfl
  have hne : generate_fallback_post news ≠ [] := by
    rw [hfb]
    exact joinNL_ne_nil _ _ hhmem (by decide)
  have hfbe : (generate_fallback_post news).isEmpty = false := by
    cases hv : generate_fallback_post news with
    | nil => exact absurd hv hne
    | cons a l => rfl
  have hpart0 : categoryEmoji news.title ++
      ' ' :: (if news.title.isEmpty then "Новости".data else news.title) ∈
      (fallbackParts news).filter (fun part => !(pyStrip part).isEmpty) := by
    refine List.mem_filter.mpr ⟨by simp [fallbackParts], ?_⟩
    have hmem : e ∈ categoryEmoji news.title ++
        ' ' :: (if news.title.isEmpty then "Новости".data else news.title) := by
      rw [hcat]
      exact List.mem_cons_self _ _
    have := pyStrip_ne_nil hmem hens
    cases hv : pyStrip (categoryEmoji news.title ++
        ' ' :: (if news.title.isEmpty then "Новости".data else news.title)) with
    | nil => exact absurd hv this
    | cons a l => rfl
  have hpartU : "📖 Читать полностью: ".data ++ news.url ∈
      (fallbackParts news).filter (fun part => !(pyStrip part).isEmpty) := by
    refine List.mem_filter.mpr ⟨by simp [fallbackParts], ?_⟩
    have hmem : '📖' ∈ "📖 Читать полностью: ".data ++ news.url :=
      List.mem_append.mpr (Or.inl (by decide))
    have := pyStrip_ne_nil hmem (by decide)
    cases hv : pyStrip ("📖 Читать полностью: ".data ++ news.url) with
    | nil => exact absurd hv this
    | cons a l => rfl
  refine ⟨?_, ?_, ?_, ?_, ?_⟩
  · simp [generate_posts, h, pyTruthy, hfbe]
  · rw [hfb]
    refine isSubstring_joinNL _ _ _ hpart0 ?_
    cases hti : news.title.isEmpty with
    | true =>
      have : news.title = [] := List.isEmpty_iff.mp hti
      rw [this]
      exact isSubstring_nil _
    | false =>
      have hsplit : categoryEmoji news.title ++ ' ' :: news.title =
          (categoryEmoji news.title ++ [' ']) ++ news.title := by
        simp
      simp only [if_false, Bool.false_eq_true, ite_false]
      rw [hsplit]
      exact isSubstring_append_right _ _ _ (isSubstring_refl _)
  · rw [hfb]
    exact isSubstring_joinNL _ _ _ hpartU
      (isSubstring_append_right _ _ _ (isSubstring_refl _))
  · rw [hfb]
    exact isSubstring_joinNL _ _ _ hpart0
      (isSubstring_append_left _ _ _ (isSubstring_refl _))
  · intro hst
    rw [hfb]
    refine isSubstring_joinNL _ _ _ ?_ (isSubstring_refl _)
    exact List.mem_filter.mpr ⟨by simp [fallbackParts], by simp [hst]⟩

/-- C9 witness: a concrete item with a short nonblank summary — the returned
fallback contains title, URL, category emoji and the (untruncated) summary. -/
theorem C9_witness :
    generate_posts noneAdapter c9witem = some (generate_fallback_post c9witem) ∧
      isSubstring c9witem.title (generate_fallback_post c9witem) = true ∧
      isSubstring c9witem.url (generate_fallback_post c9witem) = true ∧
      isSubstring (categoryEmoji c9witem.title) (generate_fallback_post c9witem) = true ∧
      isSubstring (truncSummary c9witem) (generate_fallback_post c9witem) = true := by
  have h := C9_fallback noneAdapter c9witem rfl
  exact ⟨h.1, h.2.1, h.2.2.1, h.2.2.2.1, h.2.2.2.2 (by decide)⟩

/-- C10: a GENERATED post whose generated text is None or empty is left
entirely unchanged by the publish pass — no status or timestamp write, the
publishing adapter is not invoked, and neither the published nor the failed
total counts it — and the generate pass never touches it either, so iterating
the publish pass any number of times leaves it GENERATED (it is selected
again by every subsequent pass and never reaches a terminal state
automatically). -/
theorem C10_empty_text_skipped (pub : Str → Bool) (now : Nat) (p : Post)
    (h1 : p.status = PostStatus.GENERATED)
    (h2 : p.generated_text = none ∨ p.generated_text = some []) :
    publishStep pub now p = ⟨p, false, false, false⟩ ∧
      (∀ (adapter : NewsItem → Option Str) (items : List NewsItem) (kws : List Keyword),
        generateStep adapter items kws p = ⟨p, false, false⟩) ∧
      (∀ k : Nat, (fun q => (publishStep pub now q).post)^[k] p = p ∧
        ((fun q => (publishStep pub now q).post)^[k] p).status = PostStatus.GENERATED) := by
  have hstep : publishStep pub now p = ⟨p, false, false, false⟩ := by
    rcases h2 with h2 | h2 <;> simp [publishStep, h1, h2]
  have hiter : ∀ k : Nat, (fun q => (publishStep pub now q).post)^[k] p = p := by
    intro k
    induction k with
    | zero => rfl
    | succ k ih =>
      rw [Function.iterate_succ_apply', ih]
      show (publishStep pub now p).post = p
      rw [hstep]
  refine ⟨hstep, ?_, ?_⟩
  · intro adapter items kws
    simp [generateStep, h1]
  · intro k
    exact ⟨hiter k, by rw [hiter k, h1]⟩

/-- C10 witness: a GENERATED post with empty text is skipped and still
GENERATED after three publish passes. -/
theorem C10_witness :
    publishStep okPublisher 7 c10post = ⟨c10post, false, false, false⟩ ∧
      (fun q => (publishStep okPublisher 7 q).post)^[3] c10post = c10post :=
  have h := C10_empty_text_skipped okPublisher 7 c10post rfl (Or.inr rfl)
  ⟨h.1, (h.2.2 3).1⟩

end AiBot

